import Mathlib

/-!
Verification of the halisoft-subscription-api core against its
natural-language specification.

The development shallowly embeds the subscription / quota core of the
repository:

* the Prisma data model (`integrate-to-existing-project.sh`,
  models `SubscriptionPlan`, `AIComponent`, `PlanFeature`, `Subscription`,
  `UsageTracking`, `PayPalEvent`) as Lean structures over a `Db` record;
* the admission pipeline `checkSubscription` (src/middleware/subscription.ts)
  followed by `enforceQuota` (src/middleware/quotaEnforcement.ts);
* `UsageTrackingService` (`getComponentUsage`, `incrementUsage`,
  `checkQuotaWarnings`, `initializeUsageForSubscription`, `resetQuotas`);
* `SubscriptionService` (`activateSubscription`, `hasFeatureAccess`);
* the PayPal webhook route (src/routes/webhooks.ts) with its event handlers;
* the daily rollover cron `resetMonthlyQuotas` (src/cron/reset-quotas).

Modelling conventions, stated once:

* Timestamps are integers counted in whole days; date-fns `addMonths` /
  `addYears` become `+ 30` / `+ 360` on the plan's billing period, and
  `startOfDay today = today`, `endOfDay today = today + 1`.
  None of the verified properties depend on calendar arithmetic beyond
  "the period advances".
* JavaScript float percentages `used / limit * 100` are compared to a
  threshold `t` by the exact cross-multiplied test `used * 100 ≥ t * limit`,
  which agrees with the float computation on all integer inputs that occur.
* Prisma uuid generation is modelled by a `nextId` counter in the `Db`.
* Database reads that the source performs through Prisma (`findUnique`,
  `findFirst`) become `List.find?` over the corresponding table, in table
  order; `@unique` columns are reflected where a claim depends on them
  (notably `PayPalEvent.eventId`).
* Outbound e-mails (`EmailService`) are modelled as a list of emitted
  `Notice` values; the webhook HTTP response is modelled by its status code.
* PayPal signature verification is external; the model covers the
  valid-signature path of the webhook route.
-/

namespace Halisoft

/-- Subscription lifecycle status, `Subscription.status` in the Prisma
schema (stored as a string; the five values used by the code). -/
inductive SubStatus
  | PENDING
  | ACTIVE
  | SUSPENDED
  | CANCELLED
  | EXPIRED
  deriving DecidableEq, Repr

/-- `SubscriptionPlan` row (fields the core logic reads). -/
structure Plan where
  id : String
  billingPeriod : String
  isActive : Bool
  name : String
  deriving DecidableEq, Repr

/-- `AIComponent` row (fields the core logic reads). -/
structure AIComponent where
  id : String
  slug : String
  name : String
  isActive : Bool
  deriving DecidableEq, Repr

/-- `PlanFeature` row: the feature grant of one component in one plan. -/
structure PlanFeature where
  planId : String
  aiComponentId : String
  enabled : Bool
  limitValue : Option Nat
  deriving DecidableEq, Repr

/-- `Subscription` row (fields the core logic reads and writes). -/
structure Subscription where
  id : String
  userId : String
  planId : String
  status : SubStatus
  paypalSubscriptionId : Option String
  currentPeriodStart : Int
  currentPeriodEnd : Int
  cancelAtPeriodEnd : Bool
  cancelledAt : Option Int
  deriving DecidableEq, Repr

/-- `UsageTracking` row: one usage counter. -/
structure UsageRow where
  id : Nat
  subscriptionId : String
  aiComponentId : String
  value : Nat
  periodStart : Int
  periodEnd : Int
  deriving DecidableEq, Repr

/-- `PayPalEvent` row: the event ledger (`eventId` is `@unique`). -/
structure LedgerRow where
  eventId : String
  processed : Bool
  hasError : Bool
  deriving DecidableEq, Repr

/-- The database state threaded through every operation. -/
structure Db where
  plans : List Plan
  components : List AIComponent
  planFeatures : List PlanFeature
  subscriptions : List Subscription
  usage : List UsageRow
  ledger : List LedgerRow
  nextId : Nat
  deriving Repr

/-- Outbound notifications sent through `EmailService`. -/
inductive Notice
  | welcomeEmail (userId planName : String)
  | paymentReceipt (userId : String)
  | paymentFailedEmail (userId : String)
  | quotaWarningEmail (userId componentName : String) (used limit threshold : Nat)
  | quotaExceededEmail (userId componentName : String) (used limit : Nat)
  | monthlyUsageReport (userId : String)
  deriving DecidableEq, Repr

/-- Denial reasons returned by the admission pipeline (the `code` fields of
the JSON error responses in subscription.ts / quotaEnforcement.ts). -/
inductive DenyReason
  | NO_SUBSCRIPTION
  | SUBSCRIPTION_EXPIRED
  | COMPONENT_NOT_FOUND
  | FEATURE_NOT_AVAILABLE
  | QUOTA_EXCEEDED (current limit : Nat)
  deriving DecidableEq, Repr

/-- Result of the admission pipeline: either a denial response or the
request proceeds carrying the attached `componentQuota`. -/
inductive AdmitResult
  | denied (reason : DenyReason)
  | allowed (used : Nat) (limit : Option Nat) (remaining : Option Nat)
  deriving DecidableEq, Repr

/-- date-fns `addMonths`/`addYears` applied to the plan's billing period
(days granularity, see the header). -/
def addPeriod (billingPeriod : String) (t : Int) : Int :=
  if billingPeriod = "yearly" then t + 360 else t + 30

/-- `UsageTrackingService.getComponentUsage`: resolve the subscription,
then read the first usage row for the subscription's current period;
0 when the subscription or the row is absent. -/
def getComponentUsage (db : Db) (subscriptionId aiComponentId : String) : Nat :=
  match db.subscriptions.find? (fun s => s.id == subscriptionId) with
  | none => 0
  | some sub =>
    match db.usage.find? (fun u =>
        u.subscriptionId == subscriptionId && u.aiComponentId == aiComponentId &&
        u.periodStart == sub.currentPeriodStart &&
        u.periodEnd == sub.currentPeriodEnd) with
    | none => 0
    | some u => u.value

/-- `checkSubscription` (src/middleware/subscription.ts): fetch the first
ACTIVE subscription of the user; 403 NO_SUBSCRIPTION when none; 403
SUBSCRIPTION_EXPIRED when `now` is strictly past `currentPeriodEnd`. -/
def checkSubscription (db : Db) (userId : String) (now : Int) :
    Except DenyReason Subscription :=
  match db.subscriptions.find? (fun s =>
      s.userId == userId && s.status == SubStatus.ACTIVE) with
  | none => .error .NO_SUBSCRIPTION
  | some sub =>
    if sub.currentPeriodEnd < now then .error .SUBSCRIPTION_EXPIRED
    else .ok sub

/-- `enforceQuota` (src/middleware/quotaEnforcement.ts), given the
subscription attached by `checkSubscription`: resolve the component (404
when absent or inactive), resolve the enabled grant (403
FEATURE_NOT_AVAILABLE when absent), then compare current usage to the
grant's limit. Threaded through the `Db` to record that the path performs
only reads. -/
def enforceQuotaM (db : Db) (sub : Subscription) (slug : String) :
    AdmitResult × Db :=
  match db.components.find? (fun c => c.slug == slug) with
  | none => (.denied .COMPONENT_NOT_FOUND, db)
  | some comp =>
    if !comp.isActive then (.denied .COMPONENT_NOT_FOUND, db)
    else
      match db.planFeatures.find? (fun f =>
          f.planId == sub.planId && f.aiComponentId == comp.id && f.enabled) with
      | none => (.denied .FEATURE_NOT_AVAILABLE, db)
      | some feature =>
        match feature.limitValue with
        | some lim =>
          let used := getComponentUsage db sub.id comp.id
          if lim ≤ used then (.denied (.QUOTA_EXCEEDED used lim), db)
          else (.allowed used (some lim) (some (lim - used)), db)
        | none =>
          let used := getComponentUsage db sub.id comp.id
          (.allowed used none none, db)

/-- The admission pipeline `checkSubscription` then `enforceQuota`, as
mounted on the metered routes. -/
def admitM (db : Db) (userId slug : String) (now : Int) : AdmitResult × Db :=
  match checkSubscription db userId now with
  | .error r => (.denied r, db)
  | .ok sub => enforceQuotaM db sub slug

/-- The admission decision alone. -/
def admitGate (db : Db) (userId slug : String) (now : Int) : AdmitResult :=
  (admitM db userId slug now).1

/-- `SubscriptionService.hasFeatureAccess`: false for a missing or
non-ACTIVE subscription, false for a missing or disabled grant, false when
the limited quota is used up, true otherwise. -/
def hasFeatureAccess (db : Db) (subscriptionId slug : String) : Bool :=
  match db.subscriptions.find? (fun s => s.id == subscriptionId) with
  | none => false
  | some sub =>
    if sub.status ≠ SubStatus.ACTIVE then false
    else
      match db.components.find? (fun c => c.slug == slug) with
      | none => false
      | some comp =>
        match db.planFeatures.find? (fun f =>
            f.planId == sub.planId && f.aiComponentId == comp.id && f.enabled) with
        | none => false
        | some feature =>
          match feature.limitValue with
          | some lim => decide (getComponentUsage db subscriptionId comp.id < lim)
          | none => true

/-- `UsageTrackingService.checkQuotaWarnings`: re-resolve the grant for the
component on the subscription's plan (not filtered by `enabled`), skip when
`limitValue` is JS-falsy (null or 0), recompute the percentage from the
current counter value and send at most one warning e-mail: quota-exceeded
at ≥ 100%, else a 90% warning at ≥ 90%, else an 80% warning at ≥ 80%. -/
def checkQuotaWarnings (db : Db) (subscriptionId aiComponentId : String) :
    List Notice :=
  match db.subscriptions.find? (fun s => s.id == subscriptionId) with
  | none => []
  | some sub =>
    match db.planFeatures.find? (fun f =>
        f.planId == sub.planId && f.aiComponentId == aiComponentId) with
    | none => []
    | some feature =>
      match feature.limitValue with
      | none => []
      | some lim =>
        if lim = 0 then []
        else
          let used := getComponentUsage db subscriptionId aiComponentId
          let compName :=
            ((db.components.find? (fun c => c.id == aiComponentId)).map
              (fun c => c.name)).getD ""
          if lim ≤ used then
            [.quotaExceededEmail sub.userId compName used lim]
          else if 90 * lim ≤ used * 100 then
            [.quotaWarningEmail sub.userId compName used lim 90]
          else if 80 * lim ≤ used * 100 then
            [.quotaWarningEmail sub.userId compName used lim 80]
          else []

/-- `UsageTrackingService.incrementUsage`: resolve subscription and
component (throwing when absent), then increment the first usage row of
the current period by `amount`, or create a fresh row with value `amount`
when none exists; finally run `checkQuotaWarnings` on the new state. -/
def incrementUsage (db : Db) (subscriptionId aiComponentSlug : String)
    (amount : Nat) : Except String (Db × List Notice) :=
  match db.subscriptions.find? (fun s => s.id == subscriptionId) with
  | none => .error "Subscription not found"
  | some sub =>
    match db.components.find? (fun c => c.slug == aiComponentSlug) with
    | none => .error "AI component not found"
    | some comp =>
      let db1 :=
        match db.usage.find? (fun u =>
            u.subscriptionId == subscriptionId && u.aiComponentId == comp.id &&
            u.periodStart == sub.currentPeriodStart &&
            u.periodEnd == sub.currentPeriodEnd) with
        | some existing =>
          { db with usage := db.usage.map (fun u =>
              if u.id == existing.id then { u with value := u.value + amount }
              else u) }
        | none =>
          { db with
            usage := db.usage ++
              [⟨db.nextId, subscriptionId, comp.id, amount,
                sub.currentPeriodStart, sub.currentPeriodEnd⟩],
            nextId := db.nextId + 1 }
      .ok (db1, checkQuotaWarnings db1 subscriptionId comp.id)

/-- `UsageTrackingService.initializeUsageForSubscription`: create a
zero-valued counter row for every enabled grant of the subscription's plan,
for the given period; `none` when the subscription is absent (the code
throws there). -/
def initializeUsageForSubscription (db : Db) (subscriptionId : String)
    (periodStart periodEnd : Int) : Option Db :=
  match db.subscriptions.find? (fun s => s.id == subscriptionId) with
  | none => none
  | some sub =>
    let grants := db.planFeatures.filter (fun f =>
      f.planId == sub.planId && f.enabled)
    let rows := grants.enum.map (fun p =>
      (⟨db.nextId + p.1, subscriptionId, p.2.aiComponentId, 0,
        periodStart, periodEnd⟩ : UsageRow))
    some { db with usage := db.usage ++ rows,
                   nextId := db.nextId + grants.length }

/-- `UsageTrackingService.resetQuotas`: reads the subscription and logs;
past-period rows are superseded, not deleted — no data change. -/
def resetQuotas (db : Db) (_subscriptionId : String) : Db := db

/-- `SubscriptionService.activateSubscription`: resolve the subscription by
its PayPal id, set it ACTIVE over a fresh period `[now, now + interval)`
regardless of its current status, create the period's counters, and send
the welcome e-mail. -/
def activateSubscription (db : Db) (paypalSubscriptionId : String)
    (now : Int) : Except String (Db × List Notice) :=
  match db.subscriptions.find? (fun s =>
      s.paypalSubscriptionId == some paypalSubscriptionId) with
  | none => .error "Subscription not found"
  | some sub =>
    match db.plans.find? (fun p => p.id == sub.planId) with
    | none => .error "Plan not found"
    | some plan =>
      let periodEnd := addPeriod plan.billingPeriod now
      let db1 := { db with subscriptions := db.subscriptions.map (fun s =>
        if s.id == sub.id then
          { s with status := SubStatus.ACTIVE,
                   currentPeriodStart := now, currentPeriodEnd := periodEnd }
        else s) }
      match initializeUsageForSubscription db1 sub.id now periodEnd with
      | none => .error "Subscription not found"
      | some db2 => .ok (db2, [.welcomeEmail sub.userId plan.name])

/-- An inbound PayPal webhook event (`event.id`, `event.event_type`, and
the subscription reference carried in `event.resource`). -/
structure WebhookEvent where
  eventId : String
  eventType : String
  resourceId : String
  deriving DecidableEq, Repr

/-- webhooks.ts `handleSubscriptionActivated`: delegate to
`activateSubscription`; failures are logged and swallowed. -/
def handleSubscriptionActivated (db : Db) (rid : String) (now : Int) :
    Db × List Notice :=
  match activateSubscription db rid now with
  | .ok r => r
  | .error _ => (db, [])

/-- webhooks.ts `handlePaymentCompleted`: advance the billing period, force
status ACTIVE, reset and re-initialize the counters, send the receipt. -/
def handlePaymentCompleted (db : Db) (rid : String) (now : Int) :
    Db × List Notice :=
  match db.subscriptions.find? (fun s =>
      s.paypalSubscriptionId == some rid) with
  | none => (db, [])
  | some sub =>
    match db.plans.find? (fun p => p.id == sub.planId) with
    | none => (db, [])
    | some plan =>
      let newEnd := addPeriod plan.billingPeriod now
      let db1 := { db with subscriptions := db.subscriptions.map (fun s =>
        if s.id == sub.id then
          { s with status := SubStatus.ACTIVE,
                   currentPeriodStart := now, currentPeriodEnd := newEnd }
        else s) }
      let db2 := resetQuotas db1 sub.id
      match initializeUsageForSubscription db2 sub.id now newEnd with
      | none => (db2, [])
      | some db3 => (db3, [.paymentReceipt sub.userId])

/-- webhooks.ts `handleSubscriptionCancelled`: mark the subscription
CANCELLED with a cancellation timestamp; no e-mail is sent. -/
def handleSubscriptionCancelled (db : Db) (rid : String) (now : Int) :
    Db × List Notice :=
  match db.subscriptions.find? (fun s =>
      s.paypalSubscriptionId == some rid) with
  | none => (db, [])
  | some sub =>
    ({ db with subscriptions := db.subscriptions.map (fun s =>
        if s.id == sub.id then
          { s with status := SubStatus.CANCELLED, cancelledAt := some now }
        else s) }, [])

/-- webhooks.ts `handleSubscriptionSuspended`: mark SUSPENDED and send the
payment-failure e-mail. -/
def handleSubscriptionSuspended (db : Db) (rid : String) :
    Db × List Notice :=
  match db.subscriptions.find? (fun s =>
      s.paypalSubscriptionId == some rid) with
  | none => (db, [])
  | some sub =>
    ({ db with subscriptions := db.subscriptions.map (fun s =>
        if s.id == sub.id then { s with status := SubStatus.SUSPENDED }
        else s) }, [.paymentFailedEmail sub.userId])

/-- webhooks.ts `handlePaymentFailed`: notification only, no state change. -/
def handlePaymentFailed (db : Db) (rid : String) : Db × List Notice :=
  match db.subscriptions.find? (fun s =>
      s.paypalSubscriptionId == some rid) with
  | none => (db, [])
  | some sub => (db, [.paymentFailedEmail sub.userId])

/-- The `switch (event.event_type)` dispatch of the webhook route;
unhandled types are logged only. -/
def dispatchEvent (db : Db) (e : WebhookEvent) (now : Int) :
    Db × List Notice :=
  if e.eventType == "BILLING.SUBSCRIPTION.ACTIVATED" then
    handleSubscriptionActivated db e.resourceId now
  else if e.eventType == "PAYMENT.SALE.COMPLETED" then
    handlePaymentCompleted db e.resourceId now
  else if e.eventType == "BILLING.SUBSCRIPTION.CANCELLED" then
    handleSubscriptionCancelled db e.resourceId now
  else if e.eventType == "BILLING.SUBSCRIPTION.SUSPENDED" then
    handleSubscriptionSuspended db e.resourceId
  else if e.eventType == "BILLING.SUBSCRIPTION.PAYMENT.FAILED" then
    handlePaymentFailed db e.resourceId
  else
    (db, [])

/-- POST /webhooks/paypal (valid-signature path): insert the event into
the `PayPalEvent` ledger — `eventId` is `@unique`, so a redelivery makes
the insert throw, the catch block flags the existing row and answers 500
without dispatching; a first delivery is dispatched and the row is marked
processed, answering 200. -/
def processWebhook (db : Db) (e : WebhookEvent) (now : Int) :
    Db × List Notice × Nat :=
  if db.ledger.any (fun r => r.eventId == e.eventId) then
    ({ db with ledger := db.ledger.map (fun r =>
        if r.eventId == e.eventId then
          { r with processed := false, hasError := true }
        else r) }, [], 500)
  else
    let db1 := { db with ledger := db.ledger ++ [⟨e.eventId, false, false⟩] }
    let r := dispatchEvent db1 e now
    ({ r.1 with ledger := r.1.ledger.map (fun x =>
        if x.eventId == e.eventId then { x with processed := true } else x) },
     r.2, 200)

/-- One iteration of the reset-quotas cron loop for a subscription from the
expiring snapshot: advance the period window (status untouched,
`cancelAtPeriodEnd` never read), reset and re-initialize the counters, and
send the monthly usage report. -/
def rolloverOne (db : Db) (snap : Subscription) (today : Int) :
    Db × List Notice :=
  match db.plans.find? (fun p => p.id == snap.planId) with
  | none => (db, [])
  | some plan =>
    let newEnd := addPeriod plan.billingPeriod today
    let db1 := { db with subscriptions := db.subscriptions.map (fun s =>
      if s.id == snap.id then
        { s with currentPeriodStart := today, currentPeriodEnd := newEnd }
      else s) }
    let db2 := resetQuotas db1 snap.id
    match initializeUsageForSubscription db2 snap.id today newEnd with
    | none => (db2, [])
    | some db3 => (db3, [.monthlyUsageReport snap.userId])

/-- `resetMonthlyQuotas` (src/cron/reset-quotas): select the ACTIVE
subscriptions whose `currentPeriodEnd` falls within today, then roll each
one over, isolating failures per subscription. -/
def resetMonthlyQuotas (db : Db) (today : Int) : Db × List Notice :=
  let expiring := db.subscriptions.filter (fun s =>
    s.status == SubStatus.ACTIVE &&
    today ≤ s.currentPeriodEnd && s.currentPeriodEnd < today + 1)
  expiring.foldl (fun acc snap =>
    let r := rolloverOne acc.1 snap today
    (r.1, acc.2 ++ r.2)) (db, [])

/-! ### Concrete sample data used by the witnesses -/

/-- Sample monthly plan. -/
def planA : Plan := ⟨"plan-1", "monthly", true, "Starter"⟩

/-- Sample active AI component. -/
def compOcr : AIComponent := ⟨"comp-1", "invoice_ocr", "Invoice OCR", true⟩

/-- Sample enabled grant with limit 100. -/
def grant100 : PlanFeature := ⟨"plan-1", "comp-1", true, some 100⟩

/-- Sample ACTIVE subscription over period [0, 30). -/
def subAct : Subscription :=
  ⟨"sub-1", "user-1", "plan-1", .ACTIVE, some "pp-1", 0, 30, false, none⟩

/-- Sample database with one counter row at value `v` for the current
period. -/
def mkDb (v : Nat) : Db :=
  ⟨[planA], [compOcr], [grant100], [subAct],
   [⟨7, "sub-1", "comp-1", v, 0, 30⟩], [], 10⟩

/-! ### C5, C6, C7, C8, C10: the admission pipeline -/

/-- C5: on an Admit call that reaches the quota step — an ACTIVE,
unexpired subscription with a resolvable component and an enabled grant —
the decision is: Allowed with no remaining bound when the grant's limit is
null; Denied(QUOTA_EXCEEDED) carrying the used value and the limit when
usage ≥ limit; Allowed with remaining = limit − usage otherwise. -/
theorem admit_quota_decision
    (db : Db) (userId slug : String) (now : Int)
    (sub : Subscription) (comp : AIComponent) (feature : PlanFeature)
    (hsub : checkSubscription db userId now = .ok sub)
    (hcomp : db.components.find? (fun c => c.slug == slug) = some comp)
    (hact : comp.isActive = true)
    (hfeat : db.planFeatures.find? (fun f =>
        f.planId == sub.planId && f.aiComponentId == comp.id && f.enabled)
      = some feature) :
    (feature.limitValue = none →
      admitGate db userId slug now =
        .allowed (getComponentUsage db sub.id comp.id) none none) ∧
    (∀ lim, feature.limitValue = some lim →
      (lim ≤ getComponentUsage db sub.id comp.id →
        admitGate db userId slug now =
          .denied (.QUOTA_EXCEEDED (getComponentUsage db sub.id comp.id) lim)) ∧
      (getComponentUsage db sub.id comp.id < lim →
        admitGate db userId slug now =
          .allowed (getComponentUsage db sub.id comp.id) (some lim)
            (some (lim - getComponentUsage db sub.id comp.id)))) := by
  refine ⟨fun hnone => ?_, fun lim hlim => ⟨fun hge => ?_, fun hlt => ?_⟩⟩
  · unfold admitGate admitM enforceQuotaM
    rw [hsub]
    simp [hcomp, hact, hfeat, hnone]
  · unfold admitGate admitM enforceQuotaM
    rw [hsub]
    simp [hcomp, hact, hfeat, hlim, hge]
  · unfold admitGate admitM enforceQuotaM
    rw [hsub]
    simp [hcomp, hact, hfeat, hlim, Nat.not_le_of_lt hlt]

/-- Witness for C5 at the boundary instance limit = 100, usage = 100. -/
theorem admit_quota_decision_witness :
    checkSubscription (mkDb 100) "user-1" 15 = .ok subAct ∧
    admitGate (mkDb 100) "user-1" "invoice_ocr" 15 =
      .denied (.QUOTA_EXCEEDED 100 100) := by
  refine ⟨rfl, ?_⟩
  have h := admit_quota_decision (mkDb 100) "user-1" "invoice_ocr" 15
    subAct compOcr grant100 rfl (by decide) rfl (by decide)
  have h2 := (h.2 100 rfl).1 (by decide)
  have h3 : getComponentUsage (mkDb 100) subAct.id compOcr.id = 100 := by
    decide
  rw [h3] at h2
  exact h2

/-- C6: a user none of whose subscriptions is ACTIVE is denied admission
regardless of quota, and `hasFeatureAccess` is false for any subscription
whose stored status is not ACTIVE. -/
theorem admit_requires_active (db : Db) :
    (∀ userId slug now,
      (∀ s ∈ db.subscriptions, s.userId = userId →
        s.status ≠ SubStatus.ACTIVE) →
      admitGate db userId slug now = .denied .NO_SUBSCRIPTION) ∧
    (∀ subscriptionId slug sub,
      db.subscriptions.find? (fun s => s.id == subscriptionId) = some sub →
      sub.status ≠ SubStatus.ACTIVE →
      hasFeatureAccess db subscriptionId slug = false) := by
  constructor
  · intro userId slug now hall
    have hnone : db.subscriptions.find? (fun s =>
        s.userId == userId && s.status == SubStatus.ACTIVE) = none := by
      rw [List.find?_eq_none]
      intro s hs
      simp only [Bool.and_eq_true, beq_iff_eq, not_and]
      intro hu
      exact fun hst => hall s hs hu hst
    unfold admitGate admitM checkSubscription
    rw [hnone]
  · intro subscriptionId slug sub hfind hst
    unfold hasFeatureAccess
    rw [hfind]
    simp [hst]

/-- Witness for C6 with a SUSPENDED subscription. -/
theorem admit_requires_active_witness :
    admitGate ⟨[planA], [compOcr], [grant100],
        [⟨"sub-1", "user-1", "plan-1", .SUSPENDED, some "pp-1", 0, 30,
          false, none⟩], [], [], 10⟩ "user-1" "invoice_ocr" 15 =
      .denied .NO_SUBSCRIPTION ∧
    hasFeatureAccess ⟨[planA], [compOcr], [grant100],
        [⟨"sub-1", "user-1", "plan-1", .SUSPENDED, some "pp-1", 0, 30,
          false, none⟩], [], [], 10⟩ "sub-1" "invoice_ocr" = false := by
  constructor
  · exact (admit_requires_active _).1 "user-1" "invoice_ocr" 15
      (by intro s hs hu; simp at hs; subst hs; decide)
  · exact (admit_requires_active _).2 "sub-1" "invoice_ocr"
      ⟨"sub-1", "user-1", "plan-1", .SUSPENDED, some "pp-1", 0, 30,
        false, none⟩ (by decide) (by decide)

/-- C7: for an admitted-stage subscription whose plan has no enabled grant
for the requested component, the decision is never Allowed — whatever the
usage table holds — and is Denied(FEATURE_NOT_AVAILABLE) whenever the
component itself resolves. -/
theorem admit_feature_not_in_plan
    (db : Db) (userId slug : String) (now : Int) (sub : Subscription)
    (hsub : checkSubscription db userId now = .ok sub)
    (hno : ∀ c ∈ db.components, c.slug = slug →
      ∀ f ∈ db.planFeatures,
        ¬(f.planId = sub.planId ∧ f.aiComponentId = c.id ∧
          f.enabled = true)) :
    (∀ usageTable used lim rem,
      admitGate { db with usage := usageTable } userId slug now ≠
        .allowed used lim rem) ∧
    (∀ comp, db.components.find? (fun c => c.slug == slug) = some comp →
      comp.isActive = true →
      ∀ usageTable,
        admitGate { db with usage := usageTable } userId slug now =
          .denied .FEATURE_NOT_AVAILABLE) := by
  have hsub2 : ∀ usageTable : List UsageRow,
      checkSubscription { db with usage := usageTable } userId now =
        .ok sub := fun _ => hsub
  have hgrant : ∀ comp : AIComponent,
      db.components.find? (fun c => c.slug == slug) = some comp →
      db.planFeatures.find? (fun f =>
        f.planId == sub.planId && f.aiComponentId == comp.id && f.enabled)
        = none := by
    intro comp hcomp
    rw [List.find?_eq_none]
    intro f hf hpred
    have hmem := List.mem_of_find?_eq_some hcomp
    have hslug : comp.slug = slug := by
      have := List.find?_some hcomp
      simpa using this
    simp only [Bool.and_eq_true, beq_iff_eq] at hpred
    exact hno comp hmem hslug f hf ⟨hpred.1.1, hpred.1.2, hpred.2⟩
  constructor
  · intro usageTable used lim rem
    unfold admitGate admitM enforceQuotaM
    rw [hsub2 usageTable]
    dsimp only
    cases hcomp : db.components.find? (fun c => c.slug == slug) with
    | none => simp
    | some comp =>
      dsimp only
      rw [hgrant comp hcomp]
      cases hia : comp.isActive <;> simp [hia]
  · intro comp hcomp hact usageTable
    unfold admitGate admitM enforceQuotaM
    rw [hsub2 usageTable]
    dsimp only
    rw [hcomp]
    dsimp only
    rw [hgrant comp hcomp]
    simp [hact]

/-- Witness for C7: ACTIVE subscription, component with a disabled grant. -/
theorem admit_feature_not_in_plan_witness :
    admitGate ⟨[planA], [compOcr], [⟨"plan-1", "comp-1", false, some 100⟩],
        [subAct], [⟨7, "sub-1", "comp-1", 0, 0, 30⟩], [], 10⟩
      "user-1" "invoice_ocr" 15 = .denied .FEATURE_NOT_AVAILABLE := by
  have h := admit_feature_not_in_plan
    ⟨[planA], [compOcr], [⟨"plan-1", "comp-1", false, some 100⟩],
      [subAct], [], [], 10⟩ "user-1" "invoice_ocr" 15 subAct
    rfl
    (by
      intro c hc hslug f hf
      simp at hc hf
      subst hc; subst hf
      decide)
  exact h.2 compOcr (by decide) rfl [⟨7, "sub-1", "comp-1", 0, 0, 30⟩]

/-- C8: the admission pipeline performs no writes — the database after an
Admit call, Allowed or Denied, is the one before it; in particular every
usage counter is unchanged. -/
theorem admit_no_side_effects (db : Db) (userId slug : String) (now : Int) :
    (admitM db userId slug now).2 = db ∧
    (admitM db userId slug now).2.usage = db.usage := by
  have h : (admitM db userId slug now).2 = db := by
    unfold admitM enforceQuotaM
    repeat' split
    all_goals dsimp only
    all_goals try split
    all_goals rfl
  exact ⟨h, by rw [h]⟩

/-- C10: a subscription stored as ACTIVE whose current period end is
strictly in the past is denied with SUBSCRIPTION_EXPIRED at admission,
although its status field is still ACTIVE. -/
theorem admit_expired_period_denied
    (db : Db) (userId slug : String) (now : Int) (sub : Subscription)
    (hfind : db.subscriptions.find? (fun s =>
        s.userId == userId && s.status == SubStatus.ACTIVE) = some sub)
    (hpast : sub.currentPeriodEnd < now) :
    sub.status = SubStatus.ACTIVE ∧
    admitGate db userId slug now = .denied .SUBSCRIPTION_EXPIRED := by
  have hp := List.find?_some hfind
  simp only [Bool.and_eq_true, beq_iff_eq] at hp
  refine ⟨hp.2, ?_⟩
  unfold admitGate admitM checkSubscription
  rw [hfind]
  simp [hpast]

/-- Witness for C10: ACTIVE subscription with period end 30, queried at
time 45. -/
theorem admit_expired_period_denied_witness :
    subAct.status = SubStatus.ACTIVE ∧
    admitGate (mkDb 5) "user-1" "invoice_ocr" 45 =
      .denied .SUBSCRIPTION_EXPIRED := by
  exact admit_expired_period_denied (mkDb 5) "user-1" "invoice_ocr" 45
    subAct (by decide) (by decide)

/-! ### C2: threshold warnings are level-based, re-sent inside a band -/

/-- C2: the spec's crossing policy would warn once per boundary per
period, but `checkQuotaWarnings` recomputes the percentage on every
increment: the increment 79 → 82 of limit 100 sends one 80%-warning
(as specified), and the following increment 82 → 83 — which crosses no
boundary — sends a second 80%-warning in the same period. -/
theorem quota_warning_resent_in_band :
    incrementUsage (mkDb 79) "sub-1" "invoice_ocr" 3 =
      .ok (mkDb 82, [.quotaWarningEmail "user-1" "Invoice OCR" 82 100 80]) ∧
    incrementUsage (mkDb 82) "sub-1" "invoice_ocr" 1 =
      .ok (mkDb 83, [.quotaWarningEmail "user-1" "Invoice OCR" 83 100 80]) :=
  ⟨rfl, rfl⟩

/-! ### C3: the rollover pass never consults cancelAtPeriodEnd -/

/-- Sample ACTIVE subscription flagged cancelAtPeriodEnd whose period ends
today (day 30), with a counter at 42. -/
def dbRoll : Db :=
  ⟨[planA], [compOcr], [grant100],
   [⟨"sub-1", "user-1", "plan-1", .ACTIVE, some "pp-1", 0, 30, true,
     some 5⟩],
   [⟨7, "sub-1", "comp-1", 42, 0, 30⟩], [], 10⟩

/-- C3: running the daily reset cron on the day the period of an ACTIVE,
cancelAtPeriodEnd subscription ends leaves it ACTIVE over the fresh period
[30, 60) with a zeroed counter — it is not transitioned to CANCELLED. -/
theorem rollover_ignores_cancel_flag :
    ((resetMonthlyQuotas dbRoll 30).1.subscriptions.find?
        (fun s => s.id == "sub-1")).map
        (fun s => (s.status, s.currentPeriodStart, s.currentPeriodEnd,
          s.cancelAtPeriodEnd)) =
      some (SubStatus.ACTIVE, 30, 60, true) ∧
    getComponentUsage (resetMonthlyQuotas dbRoll 30).1 "sub-1" "comp-1"
      = 0 :=
  ⟨rfl, rfl⟩

/-! ### C1: event idempotency through the unique-eventId ledger -/

/-- Whether an eventId is already present in the `PayPalEvent` ledger. -/
def eventSeen (db : Db) (eid : String) : Bool :=
  db.ledger.any (fun r => r.eventId == eid)

/-- `initializeUsageForSubscription` touches only the usage table. -/
theorem initUsage_frame (db : Db) (sid : String) (ps pe : Int) (db2 : Db)
    (h : initializeUsageForSubscription db sid ps pe = some db2) :
    db2.subscriptions = db.subscriptions ∧ db2.ledger = db.ledger ∧
    db2.plans = db.plans := by
  unfold initializeUsageForSubscription at h
  cases hfind : db.subscriptions.find? (fun s => s.id == sid) with
  | none => rw [hfind] at h; cases h
  | some s => rw [hfind] at h; cases h; exact ⟨rfl, rfl, rfl⟩

/-- `initializeUsageForSubscription` succeeds whenever the subscription
resolves. -/
theorem initUsage_some (db : Db) (sid : String) (ps pe : Int)
    (h : (db.subscriptions.find? (fun s => s.id == sid)).isSome) :
    ∃ db2, initializeUsageForSubscription db sid ps pe = some db2 := by
  unfold initializeUsageForSubscription
  cases hfind : db.subscriptions.find? (fun s => s.id == sid) with
  | none => rw [hfind] at h; simp at h
  | some s => exact ⟨_, rfl⟩

/-- A successful activation leaves the event ledger untouched. -/
theorem activateSubscription_ok_frame (db : Db) (pid : String) (now : Int)
    (db2 : Db) (ns : List Notice)
    (h : activateSubscription db pid now = .ok (db2, ns)) :
    db2.ledger = db.ledger := by
  unfold activateSubscription at h
  split at h
  · cases h
  · split at h
    · cases h
    · dsimp only at h
      split at h
      · cases h
      · rename_i heq
        cases h
        exact (initUsage_frame _ _ _ _ _ heq).2.1

/-- The activated-event handler leaves the event ledger untouched. -/
theorem handleActivated_ledger (db : Db) (rid : String) (now : Int) :
    (handleSubscriptionActivated db rid now).1.ledger = db.ledger := by
  unfold handleSubscriptionActivated
  split
  · rename_i r heq
    exact activateSubscription_ok_frame db rid now r.1 r.2 (by rw [heq])
  · rfl

/-- The payment-completed handler leaves the event ledger untouched. -/
theorem handlePayment_ledger (db : Db) (rid : String) (now : Int) :
    (handlePaymentCompleted db rid now).1.ledger = db.ledger := by
  unfold handlePaymentCompleted
  split
  · rfl
  · split
    · rfl
    · dsimp only
      split
      · rfl
      · rename_i heq
        exact (initUsage_frame _ _ _ _ _ heq).2.1

/-- No webhook handler writes to the event ledger. -/
theorem dispatch_ledger (db : Db) (e : WebhookEvent) (now : Int) :
    (dispatchEvent db e now).1.ledger = db.ledger := by
  unfold dispatchEvent
  split_ifs
  · exact handleActivated_ledger db e.resourceId now
  · exact handlePayment_ledger db e.resourceId now
  · unfold handleSubscriptionCancelled
    split <;> rfl
  · unfold handleSubscriptionSuspended
    split <;> rfl
  · unfold handlePaymentFailed
    split <;> rfl
  · rfl

/-- Mapping a row-update that keeps `eventId` fixed over the ledger does
not change which eventIds occur. -/
theorem any_eventId_map (l : List LedgerRow) (g : LedgerRow → LedgerRow)
    (hg : ∀ r, (g r).eventId = r.eventId) (eid : String) :
    (l.map g).any (fun r => r.eventId == eid) =
      l.any (fun r => r.eventId == eid) := by
  induction l with
  | nil => rfl
  | cons a t ih => simp [hg, ih]

/-- Once seen, an eventId stays in the ledger across any later webhook
delivery. -/
theorem processWebhook_eventSeen_mono (db : Db) (e : WebhookEvent)
    (now : Int) (eid : String) (h : eventSeen db eid = true) :
    eventSeen (processWebhook db e now).1 eid = true := by
  unfold eventSeen at *
  unfold processWebhook
  split
  · dsimp only
    rw [any_eventId_map _ _ (by intro r; split <;> rfl)]
    exact h
  · dsimp only
    rw [any_eventId_map _ _ (by intro x; split <;> rfl), dispatch_ledger]
    dsimp only
    rw [List.any_append]
    simp [h]

/-- After a delivery of `e`, `e.eventId` is in the ledger. -/
theorem processWebhook_seen_after (db : Db) (e : WebhookEvent)
    (now : Int) :
    eventSeen (processWebhook db e now).1 e.eventId = true := by
  unfold eventSeen
  unfold processWebhook
  split
  · rename_i h
    dsimp only
    rw [any_eventId_map _ _ (by intro r; split <;> rfl)]
    exact h
  · dsimp only
    rw [any_eventId_map _ _ (by intro x; split <;> rfl), dispatch_ledger]
    dsimp only
    rw [List.any_append]
    simp

/-- A delivery whose eventId is already in the ledger fails the unique
insert before any handler runs: subscriptions and counters are unchanged
and no notification is sent. -/
theorem processWebhook_dup_noop (db : Db) (e : WebhookEvent) (now : Int)
    (h : eventSeen db e.eventId = true) :
    (processWebhook db e now).1.subscriptions = db.subscriptions ∧
    (processWebhook db e now).1.usage = db.usage ∧
    (processWebhook db e now).2.1 = [] := by
  unfold eventSeen at h
  unfold processWebhook
  simp [h]

/-- Sequential delivery of a batch of webhook events. -/
def processAll (db : Db) (evs : List (WebhookEvent × Int)) : Db :=
  evs.foldl (fun d p => (processWebhook d p.1 p.2).1) db

/-- Ledger membership is monotone across any batch of deliveries. -/
theorem processAll_eventSeen_mono (evs : List (WebhookEvent × Int))
    (db : Db) (eid : String) (h : eventSeen db eid = true) :
    eventSeen (processAll db evs) eid = true := by
  induction evs generalizing db with
  | nil => exact h
  | cons p t ih =>
    simp only [processAll, List.foldl_cons]
    exact ih _ (processWebhook_eventSeen_mono db p.1 p.2 eid h)

/-- C1: webhook processing is idempotent per eventId: after an event has
been delivered once, redelivering it — at any later time and after any
interleaving of other deliveries — leaves every subscription and every
usage counter unchanged and sends no notification, because the
`PayPalEvent.eventId` unique constraint rejects the ledger insert before
the handler dispatch. -/
theorem event_processing_idempotent (db : Db) (e : WebhookEvent)
    (n n2 : Int) (rest : List (WebhookEvent × Int)) :
    (processWebhook (processAll (processWebhook db e n).1 rest) e
        n2).1.subscriptions
      = (processAll (processWebhook db e n).1 rest).subscriptions ∧
    (processWebhook (processAll (processWebhook db e n).1 rest) e
        n2).1.usage
      = (processAll (processWebhook db e n).1 rest).usage ∧
    (processWebhook (processAll (processWebhook db e n).1 rest) e
        n2).2.1 = [] :=
  processWebhook_dup_noop _ e n2
    (processAll_eventSeen_mono rest _ e.eventId
      (processWebhook_seen_after db e n))

/-! ### C4: invalid lifecycle events are applied, not ignored -/

/-- Sample CANCELLED subscription bound to PayPal id pp-1. -/
def subCxl : Subscription :=
  ⟨"sub-1", "user-1", "plan-1", .CANCELLED, some "pp-1", 0, 30, false,
   some 5⟩

/-- Sample database with only that cancelled subscription. -/
def dbCxl : Db := ⟨[planA], [compOcr], [grant100], [subCxl], [], [], 10⟩

/-- A fresh ProviderActivated event for it. -/
def evtAct : WebhookEvent :=
  ⟨"evt-9", "BILLING.SUBSCRIPTION.ACTIVATED", "pp-1"⟩

/-- C4 counterexample: a ProviderActivated event delivered for a
subscription that is already CANCELLED does not leave the state
unchanged — the handler sets it back to ACTIVE. -/
theorem stale_activation_changes_state :
    dbCxl.subscriptions.map Subscription.status = [SubStatus.CANCELLED] ∧
    (processWebhook dbCxl evtAct 100).1.subscriptions.map
        Subscription.status = [SubStatus.ACTIVE] :=
  ⟨rfl, rfl⟩

/-- Shape of a successful activation: the subscription matched by PayPal
id is forced ACTIVE over [now, now + interval) with no look at its current
status. -/
theorem activateSubscription_ok_shape (db : Db) (pid : String) (now : Int)
    (sub : Subscription) (plan : Plan)
    (hs : db.subscriptions.find? (fun s =>
        s.paypalSubscriptionId == some pid) = some sub)
    (hp : db.plans.find? (fun p => p.id == sub.planId) = some plan) :
    ∃ db2, activateSubscription db pid now =
        .ok (db2, [.welcomeEmail sub.userId plan.name]) ∧
      db2.subscriptions = db.subscriptions.map (fun s =>
        if s.id == sub.id then
          { s with status := SubStatus.ACTIVE, currentPeriodStart := now,
                   currentPeriodEnd := addPeriod plan.billingPeriod now }
        else s) := by
  unfold activateSubscription
  rw [hs]
  dsimp only
  rw [hp]
  dsimp only
  have hmem := List.mem_of_find?_eq_some hs
  have hsome : ((db.subscriptions.map (fun s =>
      if s.id == sub.id then
        { s with status := SubStatus.ACTIVE, currentPeriodStart := now,
                 currentPeriodEnd := addPeriod plan.billingPeriod now }
      else s)).find? (fun s => s.id == sub.id)).isSome := by
    rw [List.find?_isSome]
    refine ⟨(fun s =>
      if s.id == sub.id then
        { s with status := SubStatus.ACTIVE, currentPeriodStart := now,
                 currentPeriodEnd := addPeriod plan.billingPeriod now }
      else s) sub, List.mem_map_of_mem _ hmem, ?_⟩
    simp
  obtain ⟨db2, heq⟩ := initUsage_some
    { db with subscriptions := db.subscriptions.map (fun s =>
        if s.id == sub.id then
          { s with status := SubStatus.ACTIVE, currentPeriodStart := now,
                   currentPeriodEnd := addPeriod plan.billingPeriod now }
        else s) }
    sub.id now (addPeriod plan.billingPeriod now) hsome
  rw [heq]
  exact ⟨db2, rfl, (initUsage_frame _ _ _ _ _ heq).1⟩

/-- Under a fresh eventId the webhook route acknowledges with 200 and its
state and notifications are those of the dispatched handler. -/
theorem processWebhook_fresh_parts (db : Db) (e : WebhookEvent) (now : Int)
    (hfresh : eventSeen db e.eventId = false) :
    (processWebhook db e now).1.subscriptions =
      (dispatchEvent { db with ledger :=
        db.ledger ++ [⟨e.eventId, false, false⟩] } e now).1.subscriptions ∧
    (processWebhook db e now).2.1 =
      (dispatchEvent { db with ledger :=
        db.ledger ++ [⟨e.eventId, false, false⟩] } e now).2 ∧
    (processWebhook db e now).2.2 = 200 := by
  unfold eventSeen at hfresh
  unfold processWebhook
  simp [hfresh]

/-- C4 (amended): lifecycle webhook handlers do not consult the stored
state before applying an event: a fresh ProviderActivated event whose
subscription and plan resolve is acknowledged (200) and forces the
subscription ACTIVE over a fresh period whatever its previous status
(CANCELLED and EXPIRED included); when no subscription matches, the
handler error is swallowed — subscriptions are unchanged, nothing is sent,
and the event is still acknowledged. -/
theorem activated_event_applied_unconditionally
    (db : Db) (e : WebhookEvent) (now : Int)
    (htype : e.eventType = "BILLING.SUBSCRIPTION.ACTIVATED")
    (hfresh : eventSeen db e.eventId = false) :
    ((processWebhook db e now).2.2 = 200) ∧
    (∀ sub plan,
      db.subscriptions.find? (fun s =>
        s.paypalSubscriptionId == some e.resourceId) = some sub →
      db.plans.find? (fun p => p.id == sub.planId) = some plan →
      ∀ y ∈ db.subscriptions, y.id = sub.id →
        { y with status := SubStatus.ACTIVE, currentPeriodStart := now,
                 currentPeriodEnd := addPeriod plan.billingPeriod now } ∈
          (processWebhook db e now).1.subscriptions) ∧
    (db.subscriptions.find? (fun s =>
        s.paypalSubscriptionId == some e.resourceId) = none →
      (processWebhook db e now).1.subscriptions = db.subscriptions ∧
      (processWebhook db e now).2.1 = []) := by
  obtain ⟨hA, hB, hC⟩ := processWebhook_fresh_parts db e now hfresh
  have hde : dispatchEvent { db with ledger :=
      db.ledger ++ [⟨e.eventId, false, false⟩] } e now =
      handleSubscriptionActivated { db with ledger :=
        db.ledger ++ [⟨e.eventId, false, false⟩] } e.resourceId now := by
    unfold dispatchEvent
    simp [htype]
  refine ⟨hC, ?_, ?_⟩
  · intro sub plan hs hp y hy hid
    have hs1 : ({ db with ledger :=
        db.ledger ++ [⟨e.eventId, false, false⟩] } : Db).subscriptions.find?
        (fun s => s.paypalSubscriptionId == some e.resourceId) = some sub :=
      hs
    have hp1 : ({ db with ledger :=
        db.ledger ++ [⟨e.eventId, false, false⟩] } : Db).plans.find?
        (fun p => p.id == sub.planId) = some plan := hp
    obtain ⟨db2, hact, hsubs⟩ := activateSubscription_ok_shape _
      e.resourceId now sub plan hs1 hp1
    have hh : handleSubscriptionActivated { db with ledger :=
        db.ledger ++ [⟨e.eventId, false, false⟩] } e.resourceId now =
        (db2, [.welcomeEmail sub.userId plan.name]) := by
      unfold handleSubscriptionActivated
      rw [hact]
    rw [hA, hde, hh]
    dsimp only
    rw [hsubs]
    have hfy : (fun s =>
        if s.id == sub.id then
          { s with status := SubStatus.ACTIVE, currentPeriodStart := now,
                   currentPeriodEnd := addPeriod plan.billingPeriod now }
        else s) y =
        { y with status := SubStatus.ACTIVE, currentPeriodStart := now,
                 currentPeriodEnd := addPeriod plan.billingPeriod now } := by
      simp [hid]
    exact hfy ▸ List.mem_map_of_mem _ hy
  · intro hnone
    have hn1 : ({ db with ledger :=
        db.ledger ++ [⟨e.eventId, false, false⟩] } : Db).subscriptions.find?
        (fun s => s.paypalSubscriptionId == some e.resourceId) = none :=
      hnone
    have herr : activateSubscription { db with ledger :=
        db.ledger ++ [⟨e.eventId, false, false⟩] } e.resourceId now =
        .error "Subscription not found" := by
      unfold activateSubscription
      rw [hn1]
    have hh : handleSubscriptionActivated { db with ledger :=
        db.ledger ++ [⟨e.eventId, false, false⟩] } e.resourceId now =
        ({ db with ledger := db.ledger ++ [⟨e.eventId, false, false⟩] },
         []) := by
      unfold handleSubscriptionActivated
      rw [herr]
    constructor
    · rw [hA, hde, hh]
    · rw [hB, hde, hh]

/-- Witness for the amended C4 at the cancelled subscription. -/
theorem activated_event_applied_unconditionally_witness :
    (processWebhook dbCxl evtAct 100).2.2 = 200 ∧
    { subCxl with status := SubStatus.ACTIVE, currentPeriodStart := 100,
                  currentPeriodEnd := addPeriod planA.billingPeriod 100 } ∈
      (processWebhook dbCxl evtAct 100).1.subscriptions := by
  have h := activated_event_applied_unconditionally dbCxl evtAct 100 rfl
    rfl
  exact ⟨h.1, h.2.1 subCxl planA (by decide) (by decide) subCxl
    (by simp [dbCxl]) rfl⟩

/-! ### C9: Record increments exactly the current-period counter -/

/-- `find?` commutes with a map that does not change the predicate. -/
theorem find?_map_of_pred_eq {α : Type} (l : List α) (f : α → α)
    (p : α → Bool) (hf : ∀ u, p (f u) = p u) :
    (l.map f).find? p = (l.find? p).map f := by
  rw [List.find?_map]
  have hpf : p ∘ f = p := funext hf
  rw [hpf]

/-- `find?` skips a prefix in which nothing matches. -/
theorem find?_append_of_none {α : Type} (l1 l2 : List α) (p : α → Bool)
    (h : l1.find? p = none) : (l1 ++ l2).find? p = l2.find? p := by
  rw [List.find?_append, h, Option.none_or]

/-- C9: `incrementUsage` on an existing subscription and component
increments the current-period counter read by `getComponentUsage` by
exactly `amount` — updating the existing row when there is one, appending
a fresh row of value `amount` otherwise — and leaves every row of any
other (subscription, component, period) key untouched. -/
theorem incrementUsage_spec
    (db : Db) (subId slug : String) (amount : Nat)
    (sub : Subscription) (comp : AIComponent)
    (hsub : db.subscriptions.find? (fun s => s.id == subId) = some sub)
    (hcomp : db.components.find? (fun c => c.slug == slug) = some comp)
    (hids : (db.usage.map (fun u => u.id)).Nodup) :
    ∃ db1 notices,
      incrementUsage db subId slug amount = .ok (db1, notices) ∧
      db1.subscriptions = db.subscriptions ∧
      getComponentUsage db1 subId comp.id =
        getComponentUsage db subId comp.id + amount ∧
      (∀ u ∈ db.usage,
        ¬(u.subscriptionId = subId ∧ u.aiComponentId = comp.id ∧
          u.periodStart = sub.currentPeriodStart ∧
          u.periodEnd = sub.currentPeriodEnd) →
        u ∈ db1.usage) ∧
      (db.usage.find? (fun u =>
          u.subscriptionId == subId && u.aiComponentId == comp.id &&
          u.periodStart == sub.currentPeriodStart &&
          u.periodEnd == sub.currentPeriodEnd) = none →
        db1.usage = db.usage ++
          [⟨db.nextId, subId, comp.id, amount, sub.currentPeriodStart,
            sub.currentPeriodEnd⟩]) ∧
      ((db.usage.find? (fun u =>
          u.subscriptionId == subId && u.aiComponentId == comp.id &&
          u.periodStart == sub.currentPeriodStart &&
          u.periodEnd == sub.currentPeriodEnd)).isSome →
        db1.usage.length = db.usage.length) := by
  unfold incrementUsage
  rw [hsub]
  dsimp only
  rw [hcomp]
  dsimp only
  cases hfind : db.usage.find? (fun u =>
      u.subscriptionId == subId && u.aiComponentId == comp.id &&
      u.periodStart == sub.currentPeriodStart &&
      u.periodEnd == sub.currentPeriodEnd) with
  | none =>
    refine ⟨_, _, rfl, rfl, ?_, ?_, fun _ => rfl, ?_⟩
    · unfold getComponentUsage
      dsimp only
      rw [hsub]
      dsimp only
      rw [hfind, find?_append_of_none _ _ _ hfind]
      simp
    · intro u hu _
      exact List.mem_append_left _ hu
    · intro hS
      simp at hS
  | some e =>
    have hpe := List.find?_some hfind
    have he_mem := List.mem_of_find?_eq_some hfind
    have hf : ∀ u : UsageRow,
        ((fun u => u.subscriptionId == subId && u.aiComponentId == comp.id &&
          u.periodStart == sub.currentPeriodStart &&
          u.periodEnd == sub.currentPeriodEnd)
          ((fun u => if u.id == e.id then { u with value := u.value + amount }
            else u) u)) =
        (fun u => u.subscriptionId == subId && u.aiComponentId == comp.id &&
          u.periodStart == sub.currentPeriodStart &&
          u.periodEnd == sub.currentPeriodEnd) u := by
      intro u
      dsimp only
      split <;> rfl
    refine ⟨_, _, rfl, rfl, ?_, ?_, ?_, fun _ => ?_⟩
    · unfold getComponentUsage
      dsimp only
      rw [hsub]
      dsimp only
      rw [hfind, find?_map_of_pred_eq _ _ _ hf, hfind]
      simp
    · intro u hu hnk
      simp only [Bool.and_eq_true, beq_iff_eq] at hpe
      have hne : u ≠ e := by
        intro h
        exact hnk (by
          subst h
          exact ⟨hpe.1.1.1, hpe.1.1.2, hpe.1.2, hpe.2⟩)
      have hidne : ¬(u.id == e.id) = true := by
        simp only [beq_iff_eq]
        intro h
        exact hne (List.inj_on_of_nodup_map hids hu he_mem h)
      have hfu : (fun u => if u.id == e.id then
          { u with value := u.value + amount } else u) u = u := by
        dsimp only
        rw [if_neg hidne]
      exact hfu ▸ List.mem_map_of_mem _ hu
    · intro h
      simp at h
    · exact List.length_map _ _

/-- Witness for C9: incrementing by 2 from counter value 40. -/
theorem incrementUsage_spec_witness :
    ∃ db1 notices,
      incrementUsage (mkDb 40) "sub-1" "invoice_ocr" 2 =
        .ok (db1, notices) ∧
      getComponentUsage db1 "sub-1" "comp-1" =
        getComponentUsage (mkDb 40) "sub-1" "comp-1" + 2 := by
  obtain ⟨db1, ns, heq, _, hdelta, _⟩ := incrementUsage_spec (mkDb 40)
    "sub-1" "invoice_ocr" 2 subAct compOcr (by decide) (by decide)
    (by decide)
  exact ⟨db1, ns, heq, hdelta⟩

end Halisoft
